import Mathlib

/-!
Shallow embedding of the `launchd` Rust crate (a typed data model for
launchd.plist service descriptors) and proofs about it.

Machine integers (`u8`, `u32`, ...) are embedded as `Nat`; where a claim is
about a fixed-width type the theorem carries the corresponding bound as a
hypothesis.  Fallible Rust functions returning `Result<T, Error>` are embedded
as `Except Error T`.  `HashMap<K, V>` values are only ever moved around whole
by the code under study, so they are embedded as association lists.
-/

namespace launchd

/-- Embedding of `error.rs` `Error` (plus the `EnumDeserialization` variant that
`process_type.rs` constructs).  The Rust `RangeInclusive<u8>` payload is embedded
as the two bounds `lo`, `hi`.  The `io`-feature variants `Read`/`Write` wrap an
external plist codec error and are produced by no operation modelled here, so
they are omitted. -/
inductive Error where
  | CalendarFieldOutOfBounds (lo hi : Nat) (actual : Nat)
  | PathConversion
  | InvalidCronField (ordinal : Nat)
  | EnumDeserialization (value : String)
deriving DecidableEq

/-- Embedding of `calendar_interval.rs` `CalendarInterval`: five independent
optional `u8` fields. -/
structure CalendarInterval where
  minute : Option Nat
  hour : Option Nat
  day : Option Nat
  weekday : Option Nat
  month : Option Nat
deriving DecidableEq

/-- Rust `derive(Default)`: every field `None`. -/
def CalendarInterval.default : CalendarInterval :=
  ⟨none, none, none, none, none⟩

/-- `CalendarInterval::new`, which just calls `Self::default()`. -/
def CalendarInterval.new : CalendarInterval :=
  CalendarInterval.default

/-- `CalendarInterval::with_minute` (calendar_interval.rs lines 25-33). -/
def CalendarInterval.with_minute (self : CalendarInterval) (minute : Nat) :
    Except Error CalendarInterval :=
  if minute > 59 then
    Except.error (Error.CalendarFieldOutOfBounds 0 59 minute)
  else
    Except.ok { self with minute := some minute }

/-- `CalendarInterval::with_hour` (calendar_interval.rs lines 35-43). -/
def CalendarInterval.with_hour (self : CalendarInterval) (hour : Nat) :
    Except Error CalendarInterval :=
  if hour > 23 then
    Except.error (Error.CalendarFieldOutOfBounds 0 23 hour)
  else
    Except.ok { self with hour := some hour }

/-- `CalendarInterval::with_day` (calendar_interval.rs lines 45-53). -/
def CalendarInterval.with_day (self : CalendarInterval) (day : Nat) :
    Except Error CalendarInterval :=
  if day = 0 ∨ day > 31 then
    Except.error (Error.CalendarFieldOutOfBounds 1 31 day)
  else
    Except.ok { self with day := some day }

/-- `CalendarInterval::with_weekday` (calendar_interval.rs lines 55-63). -/
def CalendarInterval.with_weekday (self : CalendarInterval) (weekday : Nat) :
    Except Error CalendarInterval :=
  if weekday > 7 then
    Except.error (Error.CalendarFieldOutOfBounds 0 7 weekday)
  else
    Except.ok { self with weekday := some weekday }

/-- `CalendarInterval::with_month` (calendar_interval.rs lines 65-73). -/
def CalendarInterval.with_month (self : CalendarInterval) (month : Nat) :
    Except Error CalendarInterval :=
  if month = 0 ∨ month > 12 then
    Except.error (Error.CalendarFieldOutOfBounds 1 12 month)
  else
    Except.ok { self with month := some month }

/-- `CalendarInterval::is_initialized` (calendar_interval.rs lines 79-85). -/
def CalendarInterval.is_initialized (self : CalendarInterval) : Bool :=
  self.minute.isSome || self.hour.isSome || self.day.isSome
    || self.weekday.isSome || self.month.isSome

/-- Model of one time-unit set of the external `cron::Schedule` collaborator.
The code under study only uses two capabilities of a unit: `is_all()` (the
wildcard test) and `iter()` (the ordinals the unit yields, in order; cron
ordinals are `u32`, embedded as `Nat`). -/
structure TimeUnitSpec where
  is_all : Bool
  ordinals : List Nat
deriving DecidableEq

/-- Model of the external `cron::Schedule` collaborator: five unit sets, as
consumed by `from_cron_schedule`. -/
structure Schedule where
  minutes : TimeUnitSpec
  hours : TimeUnitSpec
  days_of_month : TimeUnitSpec
  days_of_week : TimeUnitSpec
  months : TimeUnitSpec
deriving DecidableEq

/-- Rust `u32 -> u8` `try_into`: succeeds exactly when the value fits in a
`u8`. -/
def u8_try_from (n : Nat) : Option Nat :=
  if n ≤ 255 then some n else none

/-- The `ordinal.try_into().map_err(|_| Error::InvalidCronField(ordinal))?`
step shared by all five units of `from_cron_schedule`. -/
def cronFieldValue (ordinal : Nat) : Except Error Nat :=
  match u8_try_from ordinal with
  | some v => Except.ok v
  | none => Except.error (Error.InvalidCronField ordinal)

/-- One guarded statement of the `from_cron_schedule` loop body
(calendar_interval.rs lines 97-127): when the unit is not the wildcard,
convert the ordinal and call the setter on `result`, propagating either
error with `?`.  Exactly as in the source, the interval returned by the
setter is DISCARDED: only the error channel of the call is observed, and
`result` itself is never rebound. -/
def setUnitStep (is_all : Bool) (ordinal : Nat)
    (set : CalendarInterval → Nat → Except Error CalendarInterval)
    (result : CalendarInterval) : Except Error Unit :=
  if !is_all then
    match cronFieldValue ordinal with
    | Except.error e => Except.error e
    | Except.ok v =>
      match set result v with
      | Except.error e => Except.error e
      | Except.ok _ => Except.ok ()
  else
    Except.ok ()

/-- The innermost loop body of `from_cron_schedule` (calendar_interval.rs
lines 94-131): start from `Self::default()`, run the five guarded setter
statements, then push `result` iff `result.is_initialized()`.  Returns the
list of intervals pushed by this body (zero or one). -/
def cronBody (s : Schedule) (month weekday day hour minute : Nat) :
    Except Error (List CalendarInterval) :=
  let result := CalendarInterval.default
  match setUnitStep s.months.is_all month CalendarInterval.with_month result with
  | Except.error e => Except.error e
  | Except.ok _ =>
    match setUnitStep s.days_of_week.is_all weekday CalendarInterval.with_weekday result with
    | Except.error e => Except.error e
    | Except.ok _ =>
      match setUnitStep s.days_of_month.is_all day CalendarInterval.with_day result with
      | Except.error e => Except.error e
      | Except.ok _ =>
        match setUnitStep s.hours.is_all hour CalendarInterval.with_hour result with
        | Except.error e => Except.error e
        | Except.ok _ =>
          match setUnitStep s.minutes.is_all minute CalendarInterval.with_minute result with
          | Except.error e => Except.error e
          | Except.ok _ =>
            if CalendarInterval.is_initialized result then
              Except.ok [result]
            else
              Except.ok []

/-- One `for v in unit.iter() { body; if unit.is_all() { break; } }` loop of
`from_cron_schedule`: run the body on each ordinal in order, concatenating the
intervals each body pushes, stopping after the first iteration when the unit
is the wildcard, and propagating the first body error. -/
def iterUnit (is_all : Bool) (body : Nat → Except Error (List CalendarInterval)) :
    List Nat → Except Error (List CalendarInterval)
  | [] => Except.ok []
  | v :: vs =>
    match body v with
    | Except.error e => Except.error e
    | Except.ok r =>
      if is_all then
        Except.ok r
      else
        match iterUnit is_all body vs with
        | Except.error e => Except.error e
        | Except.ok rest => Except.ok (r ++ rest)

/-- `CalendarInterval::from_cron_schedule` (calendar_interval.rs lines
87-154): five nested unit loops, month outermost then weekday, day, hour,
minute innermost, each with the post-body wildcard break. -/
def from_cron_schedule (schedule : Schedule) : Except Error (List CalendarInterval) :=
  iterUnit schedule.months.is_all (fun month =>
    iterUnit schedule.days_of_week.is_all (fun weekday =>
      iterUnit schedule.days_of_month.is_all (fun day =>
        iterUnit schedule.hours.is_all (fun hour =>
          iterUnit schedule.minutes.is_all (fun minute =>
            cronBody schedule month weekday day hour minute)
            schedule.minutes.ordinals)
          schedule.hours.ordinals)
        schedule.days_of_month.ordinals)
      schedule.days_of_week.ordinals)
    schedule.months.ordinals

/-- Embedding of Rust `HashMap<K, V>`: the code under study only ever moves
these maps around whole, so an association list is a faithful model. -/
abbrev HashMap (K V : Type) : Type := List (K × V)

/-- Model of the external `std::path::PathBuf` collaborator: on Unix a path is
an arbitrary byte string.  The only capability the code under study uses is
`to_str()`, which succeeds exactly when the bytes are valid UTF-8. -/
abbrev PathBuf : Type := List Nat

/-- UTF-8 continuation byte test (second and later bytes of a sequence). -/
def isCont (b : Nat) : Bool :=
  0x80 ≤ b && b ≤ 0xBF

/-- Allowed second byte of a three-byte UTF-8 sequence with lead byte `b`
(per the Unicode well-formedness table: `E0` forbids overlong encodings,
`ED` forbids surrogate code points). -/
def lead3Second (b b1 : Nat) : Bool :=
  if b = 0xE0 then 0xA0 ≤ b1 && b1 ≤ 0xBF
  else if b = 0xED then 0x80 ≤ b1 && b1 ≤ 0x9F
  else isCont b1

/-- Allowed second byte of a four-byte UTF-8 sequence with lead byte `b`
(`F0` forbids overlong encodings, `F4` caps code points at `0x10FFFF`). -/
def lead4Second (b b1 : Nat) : Bool :=
  if b = 0xF0 then 0x90 ≤ b1 && b1 ≤ 0xBF
  else if b = 0xF4 then 0x80 ≤ b1 && b1 ≤ 0x8F
  else isCont b1

/-- Strict UTF-8 decoder over a byte list: returns the decoded characters
exactly when the bytes are well-formed UTF-8 (the validity rule of the Rust `str` type), `none`
otherwise. -/
def utf8DecodeChars : List Nat → Option (List Char)
  | [] => some []
  | b :: rest =>
    if b ≤ 0x7F then
      (utf8DecodeChars rest).map (fun cs => Char.ofNat b :: cs)
    else if 0xC2 ≤ b && b ≤ 0xDF then
      match rest with
      | b1 :: rest1 =>
        if isCont b1 then
          (utf8DecodeChars rest1).map
            (fun cs => Char.ofNat ((b - 0xC0) * 0x40 + (b1 - 0x80)) :: cs)
        else none
      | [] => none
    else if 0xE0 ≤ b && b ≤ 0xEF then
      match rest with
      | b1 :: b2 :: rest2 =>
        if lead3Second b b1 && isCont b2 then
          (utf8DecodeChars rest2).map
            (fun cs =>
              Char.ofNat ((b - 0xE0) * 0x1000 + (b1 - 0x80) * 0x40 + (b2 - 0x80)) :: cs)
        else none
      | _ => none
    else if 0xF0 ≤ b && b ≤ 0xF4 then
      match rest with
      | b1 :: b2 :: b3 :: rest3 =>
        if lead4Second b b1 && isCont b2 && isCont b3 then
          (utf8DecodeChars rest3).map
            (fun cs =>
              Char.ofNat ((b - 0xF0) * 0x40000 + (b1 - 0x80) * 0x1000
                + (b2 - 0x80) * 0x40 + (b3 - 0x80)) :: cs)
        else none
      | _ => none
    else none

/-- Model of `Path::to_str`: the text form of the path when its bytes are
valid UTF-8, `none` otherwise. -/
def Path.to_str (p : PathBuf) : Option String :=
  (utf8DecodeChars p).map String.mk

/-- Embedding of `sockets.rs` `SocketType`. -/
inductive SocketType where
  | Dgram
  | Stream
  | Seqpacket
deriving DecidableEq

/-- Embedding of `sockets.rs` `SocketProtocol`. -/
inductive SocketProtocol where
  | Tcp
deriving DecidableEq

/-- Embedding of `sockets.rs` `SocketFamily`. -/
inductive SocketFamily where
  | IPv4
  | IPv6
  | Unix
deriving DecidableEq

/-- Embedding of `sockets.rs` `BonjourTypes`. -/
inductive BonjourTypes where
  | Boolean (b : Bool)
  | String (s : String)
  | Array (xs : List String)
deriving DecidableEq

/-- Embedding of `sockets.rs` `SocketOptions` (lines 50-62); `sock_path_mode`
is an `i128` in the source, embedded as `Int`. -/
structure SocketOptions where
  sock_type : Option SocketType
  sock_passive : Option Bool
  sock_node_name : Option String
  sock_service_name : Option String
  sock_family : Option SocketFamily
  sock_protocol : Option SocketProtocol
  sock_path_name : Option String
  secure_socket_with_key : Option String
  sock_path_mode : Option Int
  bonjour : Option BonjourTypes
  multicast_group : Option String
deriving DecidableEq

/-- `SocketOptions::new` (sockets.rs lines 89-103): every field `None`. -/
def SocketOptions.new : SocketOptions :=
  ⟨none, none, none, none, none, none, none, none, none, none, none⟩

/-- `SocketOptions::with_path_name` (sockets.rs lines 139-147): convert the
path with `to_str().ok_or(Error::PathConversion)?`, then set
`sock_path_name` to the owned text form. -/
def SocketOptions.with_path_name (self : SocketOptions) (name : PathBuf) :
    Except Error SocketOptions :=
  match Path.to_str name with
  | none => Except.error Error.PathConversion
  | some pathstr => Except.ok { self with sock_path_name := some pathstr }

/-- Embedding of `sockets.rs` `Sockets` (lines 14-17): either one socket
dictionary or a list of socket dictionaries. -/
inductive Sockets where
  | Dictionary (dict : HashMap String SocketOptions)
  | Array (arr : List (HashMap String SocketOptions))
deriving DecidableEq

/-- Embedding of `process_type.rs` `ProcessType`. -/
inductive ProcessType where
  | Background
  | Standard
  | Adaptive
  | Interactive
deriving DecidableEq

/-- `TryFrom<String> for ProcessType` (process_type.rs lines 31-39): a match
on the exact strings, any other string producing
`Error::EnumDeserialization` carrying the offending string. -/
def ProcessType.try_from (s : String) : Except Error ProcessType :=
  if s = "Background" then Except.ok ProcessType.Background
  else if s = "Standard" then Except.ok ProcessType.Standard
  else if s = "Adaptive" then Except.ok ProcessType.Adaptive
  else if s = "Interactive" then Except.ok ProcessType.Interactive
  else Except.error (Error.EnumDeserialization s)

/-- Embedding of `keep_alive.rs` `KeepAliveOptions`. -/
structure KeepAliveOptions where
  successful_exit : Option Bool
  network_state : Option Bool
  path_state : Option (HashMap String Bool)
  other_job_enabled : Option (HashMap String Bool)
deriving DecidableEq

/-- Embedding of `keep_alive.rs` `KeepAliveType`. -/
inductive KeepAliveType where
  | Enabled (b : Bool)
  | Options (o : KeepAliveOptions)
deriving DecidableEq

/-- Embedding of `load_session_type.rs` `LoadSessionType`. -/
inductive LoadSessionType where
  | BareString (s : String)
  | Array (xs : List String)
deriving DecidableEq

/-- Embedding of `mach_services.rs` `MachServiceOptions`. -/
structure MachServiceOptions where
  reset_at_close : Option Bool
  hide_until_check_in : Option Bool
deriving DecidableEq

/-- Embedding of `mach_services.rs` `MachServiceEntry`. -/
inductive MachServiceEntry where
  | Boolean (b : Bool)
  | Map (o : MachServiceOptions)
deriving DecidableEq

/-- Embedding of `resource_limits.rs` `ResourceLimits` (`u64` fields embedded
as `Nat`). -/
structure ResourceLimits where
  core : Option Nat
  cpu : Option Nat
  data : Option Nat
  file_size : Option Nat
  memory_lock : Option Nat
  number_of_files : Option Nat
  number_of_processes : Option Nat
  resident_set_size : Option Nat
  stack : Option Nat
deriving DecidableEq

/-- Embedding of `lib.rs` `InetdCompatibility` (lines 194-197). -/
inductive InetdCompatibility where
  | Wait
deriving DecidableEq

/-- Minimal model of the external `plist::Value` tree type appearing in
`LaunchEvents`; the code under study never inspects these values. -/
inductive Value where
  | boolean (b : Bool)
  | integer (i : Int)
  | string (s : String)
deriving DecidableEq

/-- Embedding of `lib.rs` `LaunchEvents` (line 186): a dictionary of
dictionaries of dictionaries of plist values. -/
abbrev LaunchEvents : Type := HashMap String (HashMap String (HashMap String Value))

/-- Embedding of `lib.rs` `Launchd` (lines 121-181): the descriptor
aggregate, every field in source order.  `u16`/`u32` fields are embedded as
`Nat` and `i32` as `Int`. -/
structure Launchd where
  label : String
  disabled : Option Bool
  user_name : Option String
  group_name : Option String
  inetd_compatibility : Option (HashMap InetdCompatibility Bool)
  limit_load_to_hosts : Option (List String)
  limit_load_from_hosts : Option (List String)
  limit_load_to_session_type : Option LoadSessionType
  limit_load_to_hardware : Option (HashMap String (List String))
  limit_load_from_hardware : Option (HashMap String (List String))
  program : Option PathBuf
  bundle_program : Option String
  program_arguments : Option (List String)
  enable_globbing : Option Bool
  enable_transactions : Option Bool
  enable_pressured_exit : Option Bool
  on_demand : Option Bool
  service_ipc : Option Bool
  keep_alive : Option KeepAliveType
  run_at_load : Option Bool
  root_directory : Option PathBuf
  working_directory : Option PathBuf
  environment_variables : Option (HashMap String String)
  umask : Option Nat
  time_out : Option Nat
  exit_time_out : Option Nat
  throttle_interval : Option Nat
  init_groups : Option Bool
  watch_paths : Option (List String)
  queue_directories : Option (List String)
  start_on_mount : Option Bool
  start_interval : Option Nat
  start_calendar_intervals : Option (List CalendarInterval)
  standard_in_path : Option PathBuf
  standard_out_path : Option PathBuf
  standard_error_path : Option PathBuf
  debug : Option Bool
  wait_for_debugger : Option Bool
  soft_resource_limits : Option ResourceLimits
  hard_resource_limits : Option ResourceLimits
  nice : Option Int
  process_type : Option ProcessType
  abandon_process_group : Option Bool
  low_priority_io : Option Bool
  low_priority_background_io : Option Bool
  materialize_dataless_files : Option Bool
  launch_only_once : Option Bool
  mach_services : Option (HashMap String MachServiceEntry)
  sockets : Option Sockets
  launch_events : Option LaunchEvents
  hopefully_exits_last : Option Bool
  hopefully_exits_first : Option Bool
  session_create : Option Bool
  legacy_timers : Option Bool

/-- Rust `derive(Default)` on `Launchd`: the label is `String::default()`
(the empty string) and every optional field is `None`. -/
def Launchd.default : Launchd :=
  ⟨"", none, none, none, none, none, none, none, none, none, none, none,
    none, none, none, none, none, none, none, none, none, none, none, none,
    none, none, none, none, none, none, none, none, none, none, none, none,
    none, none, none, none, none, none, none, none, none, none, none, none,
    none, none, none, none, none, none⟩

/-- `Launchd::new` (lib.rs lines 209-215): sets `label` and `program`,
everything else from `Default::default()`. -/
def Launchd.new (label : String) (program : PathBuf) : Launchd :=
  { Launchd.default with label := label, program := some program }

/-- `Launchd::with_socket` (lib.rs lines 567-590): merge the incoming
`Sockets` value with whatever is already stored.  `Vec::append` is embedded
as list concatenation, `Vec::push` as appending a singleton at the tail,
`Vec::insert(0, _)` as consing at the head. -/
def Launchd.with_socket (self : Launchd) (socket : Sockets) : Launchd :=
  match self.sockets with
  | some sockets =>
    match sockets, socket with
    | Sockets.Array arr, Sockets.Array new_arr =>
      { self with sockets := some (Sockets.Array (arr ++ new_arr)) }
    | Sockets.Array arr, Sockets.Dictionary new_dict =>
      { self with sockets := some (Sockets.Array (arr ++ [new_dict])) }
    | Sockets.Dictionary dict, Sockets.Dictionary new_dict =>
      { self with sockets := some (Sockets.Array [dict, new_dict]) }
    | Sockets.Dictionary dict, Sockets.Array new_arr =>
      { self with sockets := some (Sockets.Array (dict :: new_arr)) }
  | none => { self with sockets := some socket }

/-- Concrete cron schedule for the expansion scenarios: minute explicitly
`{30}`, the four other units wildcard (a wildcard unit of the external cron
parser iterates over its whole range). -/
def minuteOnlySchedule : Schedule :=
  ⟨⟨false, [30]⟩, ⟨true, List.range 24⟩, ⟨true, (List.range 31).map (· + 1)⟩,
    ⟨true, (List.range 7).map (· + 1)⟩, ⟨true, (List.range 12).map (· + 1)⟩⟩

/-- Concrete cron schedule with two explicit units of two values each:
minute `{0, 30}` and hour `{9, 17}`, the three other units wildcard. -/
def twoByTwoSchedule : Schedule :=
  ⟨⟨false, [0, 30]⟩, ⟨false, [9, 17]⟩, ⟨true, (List.range 31).map (· + 1)⟩,
    ⟨true, (List.range 7).map (· + 1)⟩, ⟨true, (List.range 12).map (· + 1)⟩⟩

/-- Concrete cron schedule with every unit wildcard. -/
def allWildcardSchedule : Schedule :=
  ⟨⟨true, List.range 60⟩, ⟨true, List.range 24⟩, ⟨true, (List.range 31).map (· + 1)⟩,
    ⟨true, (List.range 7).map (· + 1)⟩, ⟨true, (List.range 12).map (· + 1)⟩⟩

/-- Concrete one-entry socket dictionary used in the socket-merge scenarios. -/
def demoDict1 : HashMap String SocketOptions :=
  [("netbiosd", SocketOptions.new)]

/-- A second concrete one-entry socket dictionary, distinct from `demoDict1`. -/
def demoDict2 : HashMap String SocketOptions :=
  [("netbiosd-sock", SocketOptions.new)]

/-! Helper lemmas about the calendar-interval setters. -/

/-- A minute within `0..=59` is accepted and stored. -/
theorem with_minute_ok (v : Nat) (h : v ≤ 59) (ci : CalendarInterval) :
    ci.with_minute v = Except.ok { ci with minute := some v } := by
  unfold CalendarInterval.with_minute
  rw [if_neg (by omega)]

/-- A minute above 59 is rejected with the exact range and value. -/
theorem with_minute_err (v : Nat) (h : 59 < v) (ci : CalendarInterval) :
    ci.with_minute v = Except.error (Error.CalendarFieldOutOfBounds 0 59 v) := by
  unfold CalendarInterval.with_minute
  rw [if_pos h]

/-- An hour within `0..=23` is accepted and stored. -/
theorem with_hour_ok (v : Nat) (h : v ≤ 23) (ci : CalendarInterval) :
    ci.with_hour v = Except.ok { ci with hour := some v } := by
  unfold CalendarInterval.with_hour
  rw [if_neg (by omega)]

/-- An hour above 23 is rejected with the exact range and value. -/
theorem with_hour_err (v : Nat) (h : 23 < v) (ci : CalendarInterval) :
    ci.with_hour v = Except.error (Error.CalendarFieldOutOfBounds 0 23 v) := by
  unfold CalendarInterval.with_hour
  rw [if_pos h]

/-- A day within `1..=31` is accepted and stored. -/
theorem with_day_ok (v : Nat) (h1 : 1 ≤ v) (h2 : v ≤ 31) (ci : CalendarInterval) :
    ci.with_day v = Except.ok { ci with day := some v } := by
  unfold CalendarInterval.with_day
  rw [if_neg (by omega)]

/-- A day of 0 or above 31 is rejected with the exact range and value. -/
theorem with_day_err (v : Nat) (h : v = 0 ∨ 31 < v) (ci : CalendarInterval) :
    ci.with_day v = Except.error (Error.CalendarFieldOutOfBounds 1 31 v) := by
  unfold CalendarInterval.with_day
  rw [if_pos h]

/-- A weekday within `0..=7` is accepted and stored. -/
theorem with_weekday_ok (v : Nat) (h : v ≤ 7) (ci : CalendarInterval) :
    ci.with_weekday v = Except.ok { ci with weekday := some v } := by
  unfold CalendarInterval.with_weekday
  rw [if_neg (by omega)]

/-- A weekday above 7 is rejected with the exact range and value. -/
theorem with_weekday_err (v : Nat) (h : 7 < v) (ci : CalendarInterval) :
    ci.with_weekday v = Except.error (Error.CalendarFieldOutOfBounds 0 7 v) := by
  unfold CalendarInterval.with_weekday
  rw [if_pos h]

/-- A month within `1..=12` is accepted and stored. -/
theorem with_month_ok (v : Nat) (h1 : 1 ≤ v) (h2 : v ≤ 12) (ci : CalendarInterval) :
    ci.with_month v = Except.ok { ci with month := some v } := by
  unfold CalendarInterval.with_month
  rw [if_neg (by omega)]

/-- A month of 0 or above 12 is rejected with the exact range and value. -/
theorem with_month_err (v : Nat) (h : v = 0 ∨ 12 < v) (ci : CalendarInterval) :
    ci.with_month v = Except.error (Error.CalendarFieldOutOfBounds 1 12 v) := by
  unfold CalendarInterval.with_month
  rw [if_pos h]

/-- Reducing `Except.bind` on a success value. -/
theorem except_bind_ok {α β : Type} (a : α) (f : α → Except Error β) :
    Except.bind (Except.ok a) f = f a :=
  rfl

/-- The loop body of the cron expansion never pushes an interval: its local
`result` stays `CalendarInterval.default`, which `is_initialized()` rejects. -/
theorem cronBody_ok_eq_nil (s : Schedule) (mo w d h mi : Nat)
    (l : List CalendarInterval) (hok : cronBody s mo w d h mi = Except.ok l) :
    l = [] := by
  simp only [cronBody] at hok
  repeat' split at hok
  all_goals simp_all [CalendarInterval.is_initialized, CalendarInterval.default]

/-- If the body of a unit loop only ever pushes nothing, the whole unit loop
only ever pushes nothing. -/
theorem iterUnit_ok_eq_nil (a : Bool) (body : Nat → Except Error (List CalendarInterval))
    (hbody : ∀ v l, body v = Except.ok l → l = []) :
    ∀ vals l, iterUnit a body vals = Except.ok l → l = [] := by
  intro vals
  induction vals with
  | nil =>
    intro l h
    unfold iterUnit at h
    cases h
    rfl
  | cons v vs ih =>
    intro l h
    unfold iterUnit at h
    split at h
    next e heq =>
      cases h
    next r heq =>
      have hr := hbody v r heq
      subst hr
      split at h
      next =>
        cases h
        rfl
      next =>
        split at h
        next e2 heq2 =>
          cases h
        next rest heq2 =>
          cases h
          simp [ih rest heq2]

/-! Claim theorems. -/

/-- C1: the spec says a schedule with one explicit unit of one value yields
one interval with that field set, and a schedule with two explicit units of
two values each yields the four combinations.  Evaluating the code on both
scenarios instead returns `Ok` of the empty list: every setter result in the
loop body is discarded, so no interval is ever initialized or pushed.  This
theorem records the faithful evaluation at the failing inputs. -/
theorem from_cron_schedule_scenarios_return_empty :
    from_cron_schedule minuteOnlySchedule = Except.ok []
      ∧ from_cron_schedule twoByTwoSchedule = Except.ok [] :=
  ⟨rfl, rfl⟩

/-- C2: whenever `from_cron_schedule` returns `Ok(list)`, the list is empty:
inside the nested loops each `with_*` setter result is discarded, the
candidate interval stays fully unset, and nothing is appended. -/
theorem from_cron_schedule_ok_empty (s : Schedule) (l : List CalendarInterval)
    (h : from_cron_schedule s = Except.ok l) : l = [] := by
  unfold from_cron_schedule at h
  refine iterUnit_ok_eq_nil _ _ ?_ _ _ h
  intro mo l1 h1
  refine iterUnit_ok_eq_nil _ _ ?_ _ _ h1
  intro w l2 h2
  refine iterUnit_ok_eq_nil _ _ ?_ _ _ h2
  intro d l3 h3
  refine iterUnit_ok_eq_nil _ _ ?_ _ _ h3
  intro hr l4 h4
  refine iterUnit_ok_eq_nil _ _ ?_ _ _ h4
  intro mi l5 h5
  exact cronBody_ok_eq_nil s mo w d hr mi l5 h5

/-- Witness for C2 at the all-wildcard schedule. -/
theorem from_cron_schedule_ok_empty_witness :
    from_cron_schedule allWildcardSchedule = Except.ok ([] : List CalendarInterval)
      ∧ ([] : List CalendarInterval) = [] :=
  ⟨rfl, from_cron_schedule_ok_empty allWildcardSchedule [] rfl⟩

/-- C3: for every `u8` value, each setter succeeds with exactly its field set
iff the value lies in the inclusive range (minute `0..=59`, hour `0..=23`,
day `1..=31`, weekday `0..=7`, month `1..=12`), and otherwise fails with the
out-of-range error carrying exactly that range and the value. -/
theorem with_field_range_spec (ci : CalendarInterval) (v : Nat) (hv : v < 256) :
    ((v ≤ 59 → ci.with_minute v = Except.ok { ci with minute := some v })
      ∧ (59 < v → ci.with_minute v = Except.error (Error.CalendarFieldOutOfBounds 0 59 v)))
    ∧ ((v ≤ 23 → ci.with_hour v = Except.ok { ci with hour := some v })
      ∧ (23 < v → ci.with_hour v = Except.error (Error.CalendarFieldOutOfBounds 0 23 v)))
    ∧ ((1 ≤ v ∧ v ≤ 31 → ci.with_day v = Except.ok { ci with day := some v })
      ∧ (v = 0 ∨ 31 < v → ci.with_day v = Except.error (Error.CalendarFieldOutOfBounds 1 31 v)))
    ∧ ((v ≤ 7 → ci.with_weekday v = Except.ok { ci with weekday := some v })
      ∧ (7 < v → ci.with_weekday v = Except.error (Error.CalendarFieldOutOfBounds 0 7 v)))
    ∧ ((1 ≤ v ∧ v ≤ 12 → ci.with_month v = Except.ok { ci with month := some v })
      ∧ (v = 0 ∨ 12 < v → ci.with_month v = Except.error (Error.CalendarFieldOutOfBounds 1 12 v))) := by
  refine ⟨⟨?_, ?_⟩, ⟨?_, ?_⟩, ⟨?_, ?_⟩, ⟨?_, ?_⟩, ⟨?_, ?_⟩⟩
  · intro h; exact with_minute_ok v h ci
  · intro h; exact with_minute_err v h ci
  · intro h; exact with_hour_ok v h ci
  · intro h; exact with_hour_err v h ci
  · intro h; exact with_day_ok v h.1 h.2 ci
  · intro h; exact with_day_err v h ci
  · intro h; exact with_weekday_ok v h ci
  · intro h; exact with_weekday_err v h ci
  · intro h; exact with_month_ok v h.1 h.2 ci
  · intro h; exact with_month_err v h ci

/-- Witness for C3 at minute 5 on the empty interval, plus an out-of-range
instance at minute 60. -/
theorem with_field_range_spec_witness :
    (5 : Nat) < 256
      ∧ CalendarInterval.with_minute CalendarInterval.default 5
          = Except.ok { CalendarInterval.default with minute := some 5 }
      ∧ CalendarInterval.with_minute CalendarInterval.default 60
          = Except.error (Error.CalendarFieldOutOfBounds 0 59 60) :=
  ⟨by decide,
    (with_field_range_spec CalendarInterval.default 5 (by decide)).1.1 (by decide),
    (with_field_range_spec CalendarInterval.default 60 (by decide)).1.2 (by decide)⟩

/-- C4: for in-range values, setters of distinct fields commute (all ten
pairs), and applying the same setter twice keeps only the last value, without
error (all five fields). -/
theorem setters_comm_last_wins (ci : CalendarInterval)
    (mi mi2 ho ho2 da da2 we we2 mo mo2 : Nat)
    (hmi : mi ≤ 59) (hmi2 : mi2 ≤ 59) (hho : ho ≤ 23) (hho2 : ho2 ≤ 23)
    (hda1 : 1 ≤ da) (hda2 : da ≤ 31) (hdb1 : 1 ≤ da2) (hdb2 : da2 ≤ 31)
    (hwe : we ≤ 7) (hwe2 : we2 ≤ 7)
    (hmo1 : 1 ≤ mo) (hmo2 : mo ≤ 12) (hmb1 : 1 ≤ mo2) (hmb2 : mo2 ≤ 12) :
    (Except.bind (ci.with_minute mi) (fun c => c.with_hour ho)
        = Except.bind (ci.with_hour ho) (fun c => c.with_minute mi))
    ∧ (Except.bind (ci.with_minute mi) (fun c => c.with_day da)
        = Except.bind (ci.with_day da) (fun c => c.with_minute mi))
    ∧ (Except.bind (ci.with_minute mi) (fun c => c.with_weekday we)
        = Except.bind (ci.with_weekday we) (fun c => c.with_minute mi))
    ∧ (Except.bind (ci.with_minute mi) (fun c => c.with_month mo)
        = Except.bind (ci.with_month mo) (fun c => c.with_minute mi))
    ∧ (Except.bind (ci.with_hour ho) (fun c => c.with_day da)
        = Except.bind (ci.with_day da) (fun c => c.with_hour ho))
    ∧ (Except.bind (ci.with_hour ho) (fun c => c.with_weekday we)
        = Except.bind (ci.with_weekday we) (fun c => c.with_hour ho))
    ∧ (Except.bind (ci.with_hour ho) (fun c => c.with_month mo)
        = Except.bind (ci.with_month mo) (fun c => c.with_hour ho))
    ∧ (Except.bind (ci.with_day da) (fun c => c.with_weekday we)
        = Except.bind (ci.with_weekday we) (fun c => c.with_day da))
    ∧ (Except.bind (ci.with_day da) (fun c => c.with_month mo)
        = Except.bind (ci.with_month mo) (fun c => c.with_day da))
    ∧ (Except.bind (ci.with_weekday we) (fun c => c.with_month mo)
        = Except.bind (ci.with_month mo) (fun c => c.with_weekday we))
    ∧ (Except.bind (ci.with_minute mi) (fun c => c.with_minute mi2)
        = ci.with_minute mi2)
    ∧ (Except.bind (ci.with_hour ho) (fun c => c.with_hour ho2)
        = ci.with_hour ho2)
    ∧ (Except.bind (ci.with_day da) (fun c => c.with_day da2)
        = ci.with_day da2)
    ∧ (Except.bind (ci.with_weekday we) (fun c => c.with_weekday we2)
        = ci.with_weekday we2)
    ∧ (Except.bind (ci.with_month mo) (fun c => c.with_month mo2)
        = ci.with_month mo2) := by
  refine ⟨?_, ?_, ?_, ?_, ?_, ?_, ?_, ?_, ?_, ?_, ?_, ?_, ?_, ?_, ?_⟩ <;>
    simp only [with_minute_ok mi hmi, with_minute_ok mi2 hmi2,
      with_hour_ok ho hho, with_hour_ok ho2 hho2,
      with_day_ok da hda1 hda2, with_day_ok da2 hdb1 hdb2,
      with_weekday_ok we hwe, with_weekday_ok we2 hwe2,
      with_month_ok mo hmo1 hmo2, with_month_ok mo2 hmb1 hmb2,
      except_bind_ok]

/-- Witness for C4: minute and hour setters commute on the empty interval. -/
theorem setters_comm_last_wins_witness :
    Except.bind (CalendarInterval.with_minute CalendarInterval.default 10)
        (fun c => c.with_hour 12)
      = Except.bind (CalendarInterval.with_hour CalendarInterval.default 12)
        (fun c => c.with_minute 10) :=
  (setters_comm_last_wins CalendarInterval.default 10 11 12 13 4 5 6 7 8 9
    (by decide) (by decide) (by decide) (by decide) (by decide) (by decide)
    (by decide) (by decide) (by decide) (by decide) (by decide) (by decide)
    (by decide) (by decide)).1

/-- C5: each setter either succeeds, changing exactly its own field and
leaving the other four untouched, or fails with the out-of-range error and no
modified interval is observable at all. -/
theorem setter_frame (ci : CalendarInterval) (v : Nat) :
    (ci.with_minute v = Except.ok { ci with minute := some v }
      ∨ ci.with_minute v = Except.error (Error.CalendarFieldOutOfBounds 0 59 v))
    ∧ (ci.with_hour v = Except.ok { ci with hour := some v }
      ∨ ci.with_hour v = Except.error (Error.CalendarFieldOutOfBounds 0 23 v))
    ∧ (ci.with_day v = Except.ok { ci with day := some v }
      ∨ ci.with_day v = Except.error (Error.CalendarFieldOutOfBounds 1 31 v))
    ∧ (ci.with_weekday v = Except.ok { ci with weekday := some v }
      ∨ ci.with_weekday v = Except.error (Error.CalendarFieldOutOfBounds 0 7 v))
    ∧ (ci.with_month v = Except.ok { ci with month := some v }
      ∨ ci.with_month v = Except.error (Error.CalendarFieldOutOfBounds 1 12 v)) := by
  refine ⟨?_, ?_, ?_, ?_, ?_⟩
  · by_cases h : 59 < v
    · exact Or.inr (with_minute_err v h ci)
    · exact Or.inl (with_minute_ok v (by omega) ci)
  · by_cases h : 23 < v
    · exact Or.inr (with_hour_err v h ci)
    · exact Or.inl (with_hour_ok v (by omega) ci)
  · by_cases h : v = 0 ∨ 31 < v
    · exact Or.inr (with_day_err v h ci)
    · exact Or.inl (with_day_ok v (by omega) (by omega) ci)
  · by_cases h : 7 < v
    · exact Or.inr (with_weekday_err v h ci)
    · exact Or.inl (with_weekday_ok v (by omega) ci)
  · by_cases h : v = 0 ∨ 12 < v
    · exact Or.inr (with_month_err v h ci)
    · exact Or.inl (with_month_ok v (by omega) (by omega) ci)

/-- C6: with no sockets set, `with_socket` stores a structured record
directly (not wrapped in a one-element list), and a second structured record
then yields the two-element list in insertion order. -/
theorem with_socket_first_dict_stored_directly (l : Launchd)
    (d1 d2 : HashMap String SocketOptions) (h : l.sockets = none) :
    (Launchd.with_socket l (Sockets.Dictionary d1)).sockets = some (Sockets.Dictionary d1)
    ∧ (Launchd.with_socket (Launchd.with_socket l (Sockets.Dictionary d1))
        (Sockets.Dictionary d2)).sockets = some (Sockets.Array [d1, d2]) := by
  have h1 : Launchd.with_socket l (Sockets.Dictionary d1)
      = { l with sockets := some (Sockets.Dictionary d1) } := by
    unfold Launchd.with_socket
    rw [h]
  constructor
  · rw [h1]
  · rw [h1]
    rfl

/-- Witness for C6 starting from `Launchd::default()`. -/
theorem with_socket_first_dict_witness :
    Launchd.sockets Launchd.default = none
    ∧ ((Launchd.with_socket Launchd.default (Sockets.Dictionary demoDict1)).sockets
        = some (Sockets.Dictionary demoDict1)
      ∧ (Launchd.with_socket (Launchd.with_socket Launchd.default (Sockets.Dictionary demoDict1))
          (Sockets.Dictionary demoDict2)).sockets
        = some (Sockets.Array [demoDict1, demoDict2])) :=
  ⟨rfl, with_socket_first_dict_stored_directly Launchd.default demoDict1 demoDict2 rfl⟩

/-- C7 counterexample: when the sockets field already holds a list, a
structured record passed to `with_socket` is appended at the TAIL of the
list (`Vec::push`), not inserted at the head as the claim states. -/
theorem with_socket_record_goes_to_tail_counterexample :
    (Launchd.with_socket
        { Launchd.default with sockets := some (Sockets.Array [demoDict1]) }
        (Sockets.Dictionary demoDict2)).sockets
      = some (Sockets.Array [demoDict1, demoDict2])
    ∧ ¬ (Launchd.with_socket
        { Launchd.default with sockets := some (Sockets.Array [demoDict1]) }
        (Sockets.Dictionary demoDict2)).sockets
      = some (Sockets.Array [demoDict2, demoDict1]) := by
  refine ⟨rfl, by decide⟩

/-- C7 (amended): when the sockets field already holds a list, `with_socket`
appends a structured record at the tail of the existing list, and
concatenates a list argument after the existing entries, preserving insertion
order in both cases. -/
theorem with_socket_array_merge_spec (l : Launchd)
    (arr new_arr : List (HashMap String SocketOptions))
    (d : HashMap String SocketOptions)
    (h : l.sockets = some (Sockets.Array arr)) :
    (Launchd.with_socket l (Sockets.Dictionary d)).sockets
        = some (Sockets.Array (arr ++ [d]))
    ∧ (Launchd.with_socket l (Sockets.Array new_arr)).sockets
        = some (Sockets.Array (arr ++ new_arr)) := by
  unfold Launchd.with_socket
  rw [h]
  exact ⟨rfl, rfl⟩

/-- Witness for the amended C7 on a one-element existing list. -/
theorem with_socket_array_merge_witness :
    Launchd.sockets { Launchd.default with sockets := some (Sockets.Array [demoDict1]) }
        = some (Sockets.Array [demoDict1])
    ∧ ((Launchd.with_socket
          { Launchd.default with sockets := some (Sockets.Array [demoDict1]) }
          (Sockets.Dictionary demoDict2)).sockets
        = some (Sockets.Array [demoDict1, demoDict2])
      ∧ (Launchd.with_socket
          { Launchd.default with sockets := some (Sockets.Array [demoDict1]) }
          (Sockets.Array [demoDict2])).sockets
        = some (Sockets.Array [demoDict1, demoDict2])) :=
  ⟨rfl, with_socket_array_merge_spec _ [demoDict1] [demoDict2] demoDict2 rfl⟩

/-- C8 counterexample: the path-conversion error does NOT carry the offending
path: two distinct non-UTF-8 paths produce identical results, both the
payload-free `Error::PathConversion`. -/
theorem with_path_name_error_carries_no_path :
    SocketOptions.with_path_name SocketOptions.new [0xFF]
      = SocketOptions.with_path_name SocketOptions.new [0xFE]
    ∧ ([0xFF] : PathBuf) ≠ [0xFE]
    ∧ SocketOptions.with_path_name SocketOptions.new [0xFF]
      = Except.error Error.PathConversion :=
  ⟨rfl, by decide, rfl⟩

/-- C8 (amended): for a path that is not representable as UTF-8 text,
`with_path_name` returns the payload-free path-conversion error; for a
representable path it returns `Ok` with `sock_path_name` set to the text
form. -/
theorem with_path_name_spec (opts : SocketOptions) (p : PathBuf) :
    (Path.to_str p = none →
      SocketOptions.with_path_name opts p = Except.error Error.PathConversion)
    ∧ (∀ s, Path.to_str p = some s →
      SocketOptions.with_path_name opts p
        = Except.ok { opts with sock_path_name := some s }) := by
  constructor
  · intro h
    unfold SocketOptions.with_path_name
    rw [h]
  · intro s h
    unfold SocketOptions.with_path_name
    rw [h]

/-- Witness for the amended C8 on the two-byte ASCII path `hi`. -/
theorem with_path_name_spec_witness :
    Path.to_str [104, 105] = some "hi"
    ∧ SocketOptions.with_path_name SocketOptions.new [104, 105]
        = Except.ok { SocketOptions.new with sock_path_name := some "hi" } :=
  ⟨by decide, (with_path_name_spec SocketOptions.new [104, 105]).2 "hi" (by decide)⟩

/-- C9: `ProcessType::try_from` accepts exactly the four recognized strings,
mapping each to its variant, and any other string fails with the
enum-deserialization error carrying the offending string verbatim. -/
theorem try_from_spec (s : String) :
    (s = "Background" → ProcessType.try_from s = Except.ok ProcessType.Background)
    ∧ (s = "Standard" → ProcessType.try_from s = Except.ok ProcessType.Standard)
    ∧ (s = "Adaptive" → ProcessType.try_from s = Except.ok ProcessType.Adaptive)
    ∧ (s = "Interactive" → ProcessType.try_from s = Except.ok ProcessType.Interactive)
    ∧ (s ≠ "Background" ∧ s ≠ "Standard" ∧ s ≠ "Adaptive" ∧ s ≠ "Interactive" →
        ProcessType.try_from s = Except.error (Error.EnumDeserialization s))
    ∧ ((∃ p, ProcessType.try_from s = Except.ok p) ↔
        (s = "Background" ∨ s = "Standard" ∨ s = "Adaptive" ∨ s = "Interactive")) := by
  refine ⟨?_, ?_, ?_, ?_, ?_, ?_⟩
  · intro h
    subst h
    rfl
  · intro h
    subst h
    unfold ProcessType.try_from
    rw [if_neg (by decide), if_pos rfl]
  · intro h
    subst h
    unfold ProcessType.try_from
    rw [if_neg (by decide), if_neg (by decide), if_pos rfl]
  · intro h
    subst h
    unfold ProcessType.try_from
    rw [if_neg (by decide), if_neg (by decide), if_neg (by decide), if_pos rfl]
  · rintro ⟨h1, h2, h3, h4⟩
    unfold ProcessType.try_from
    rw [if_neg h1, if_neg h2, if_neg h3, if_neg h4]
  · constructor
    · rintro ⟨p, hp⟩
      by_contra hcon
      push_neg at hcon
      obtain ⟨h1, h2, h3, h4⟩ := hcon
      unfold ProcessType.try_from at hp
      rw [if_neg h1, if_neg h2, if_neg h3, if_neg h4] at hp
      cases hp
    · rintro (h | h | h | h) <;> subst h <;> exact ⟨_, rfl⟩

/-- Witness for C9 on one accepted and one rejected string. -/
theorem try_from_spec_witness :
    ProcessType.try_from "Background" = Except.ok ProcessType.Background
    ∧ ProcessType.try_from "Bogus" = Except.error (Error.EnumDeserialization "Bogus") :=
  ⟨(try_from_spec "Background").1 rfl,
    (try_from_spec "Bogus").2.2.2.2.1 ⟨by decide, by decide, by decide, by decide⟩⟩

/-- C10: `Launchd::default()` produces the aggregate with the empty-string
label, an unset program, and every other field unset, so a descriptor lacking
both mandatory fields of `Launchd::new` is constructible without `new`;
`new` by contrast always sets both. -/
theorem default_launchd_fields :
    Launchd.label Launchd.default = ""
    ∧ Launchd.program Launchd.default = none
    ∧ Launchd.disabled Launchd.default = none
    ∧ Launchd.user_name Launchd.default = none
    ∧ Launchd.group_name Launchd.default = none
    ∧ Launchd.inetd_compatibility Launchd.default = none
    ∧ Launchd.limit_load_to_hosts Launchd.default = none
    ∧ Launchd.limit_load_from_hosts Launchd.default = none
    ∧ Launchd.limit_load_to_session_type Launchd.default = none
    ∧ Launchd.limit_load_to_hardware Launchd.default = none
    ∧ Launchd.limit_load_from_hardware Launchd.default = none
    ∧ Launchd.bundle_program Launchd.default = none
    ∧ Launchd.program_arguments Launchd.default = none
    ∧ Launchd.enable_globbing Launchd.default = none
    ∧ Launchd.enable_transactions Launchd.default = none
    ∧ Launchd.enable_pressured_exit Launchd.default = none
    ∧ Launchd.on_demand Launchd.default = none
    ∧ Launchd.service_ipc Launchd.default = none
    ∧ Launchd.keep_alive Launchd.default = none
    ∧ Launchd.run_at_load Launchd.default = none
    ∧ Launchd.root_directory Launchd.default = none
    ∧ Launchd.working_directory Launchd.default = none
    ∧ Launchd.environment_variables Launchd.default = none
    ∧ Launchd.umask Launchd.default = none
    ∧ Launchd.time_out Launchd.default = none
    ∧ Launchd.exit_time_out Launchd.default = none
    ∧ Launchd.throttle_interval Launchd.default = none
    ∧ Launchd.init_groups Launchd.default = none
    ∧ Launchd.watch_paths Launchd.default = none
    ∧ Launchd.queue_directories Launchd.default = none
    ∧ Launchd.start_on_mount Launchd.default = none
    ∧ Launchd.start_interval Launchd.default = none
    ∧ Launchd.start_calendar_intervals Launchd.default = none
    ∧ Launchd.standard_in_path Launchd.default = none
    ∧ Launchd.standard_out_path Launchd.default = none
    ∧ Launchd.standard_error_path Launchd.default = none
    ∧ Launchd.debug Launchd.default = none
    ∧ Launchd.wait_for_debugger Launchd.default = none
    ∧ Launchd.soft_resource_limits Launchd.default = none
    ∧ Launchd.hard_resource_limits Launchd.default = none
    ∧ Launchd.nice Launchd.default = none
    ∧ Launchd.process_type Launchd.default = none
    ∧ Launchd.abandon_process_group Launchd.default = none
    ∧ Launchd.low_priority_io Launchd.default = none
    ∧ Launchd.low_priority_background_io Launchd.default = none
    ∧ Launchd.materialize_dataless_files Launchd.default = none
    ∧ Launchd.launch_only_once Launchd.default = none
    ∧ Launchd.mach_services Launchd.default = none
    ∧ Launchd.sockets Launchd.default = none
    ∧ Launchd.launch_events Launchd.default = none
    ∧ Launchd.hopefully_exits_last Launchd.default = none
    ∧ Launchd.hopefully_exits_first Launchd.default = none
    ∧ Launchd.session_create Launchd.default = none
    ∧ Launchd.legacy_timers Launchd.default = none
    ∧ (∀ lbl prog, Launchd.label (Launchd.new lbl prog) = lbl
        ∧ Launchd.program (Launchd.new lbl prog) = some prog) :=
  ⟨rfl, rfl, rfl, rfl, rfl, rfl, rfl, rfl, rfl, rfl, rfl, rfl, rfl, rfl,
    rfl, rfl, rfl, rfl, rfl, rfl, rfl, rfl, rfl, rfl, rfl, rfl, rfl, rfl,
    rfl, rfl, rfl, rfl, rfl, rfl, rfl, rfl, rfl, rfl, rfl, rfl, rfl, rfl,
    rfl, rfl, rfl, rfl, rfl, rfl, rfl, rfl, rfl, rfl, rfl, rfl,
    fun lbl prog => ⟨rfl, rfl⟩⟩

end launchd
